import Mathlib

/-
Verification of the topic-routed signal relay in app/src/main.py
(class SampleApp).

Shallow embedding conventions:
 - Python values delivered by the vehicle data broker are modelled by
   `PVal`.  A Python float is identified by its decimal string
   representation (the program never computes with values, it only
   forwards and prints them).
 - JSON payloads are modelled as JSON values (`Json`): `json.dumps` is
   the injection of a Python object into this value domain; byte-level
   whitespace emitted by the serializer is SDK framing, outside the app.
 - The SDK environment is a `World`: `brokerGet` is the synchronous
   point read `Vehicle.<path>.get()` (where `Option.none` models a
   raised broker error) and `pubOk` tells whether `publish_event` on a
   topic succeeds (`false` models a raised transport error).
 - An async handler is a function from the world (and its argument) to
   `Except PyErr HandlerOut`: `Except.error` models an exception
   escaping the handler (no publish recorded), `Except.ok` carries the
   debug-log lines and the (topic, payload) publishes performed.
-/

namespace SampleApp

/-- Python values as delivered by the data broker; a float is identified
by its decimal string representation. -/
inductive PVal where
  | none : PVal
  | bool : Bool → PVal
  | int : Int → PVal
  | float : String → PVal
  | str : String → PVal
deriving DecidableEq, Repr

/-- Python str() rendering as used inside an f-string. -/
def pstr : PVal → String
  | PVal.none => "None"
  | PVal.bool true => "True"
  | PVal.bool false => "False"
  | PVal.int n => toString n
  | PVal.float r => r
  | PVal.str s => s

/-- JSON values, the image of json.dumps on the objects this app builds. -/
inductive Json where
  | null : Json
  | bool : Bool → Json
  | num : String → Json
  | str : String → Json
  | obj : List (String × Json) → Json

/-- How json.dumps serializes a broker value inside a payload object. -/
def PVal.toJson : PVal → Json
  | PVal.none => Json.null
  | PVal.bool b => Json.bool b
  | PVal.int n => Json.num (toString n)
  | PVal.float r => Json.num r
  | PVal.str s => Json.str s

def GET_SPEED_REQUEST_TOPIC : String := "sampleapp/getSpeed"

def GET_SPEED_RESPONSE_TOPIC : String := "sampleapp/getSpeed/response"

def GET_STEER_REQUEST_TOPIC : String := "sampleapp/getSteer"

def GET_STEER_RESPONSE_TOPIC : String := "sampleapp/getSteer/response"

def GET_THROT_REQUEST_TOPIC : String := "sampleapp/getThrottle"

def GET_THROT_RESPONSE_TOPIC : String := "sampleapp/getThrottle/response"

def GET_BRAKE_REQUEST_TOPIC : String := "sampleapp/getBrake"

def GET_BRAKE_RESPONSE_TOPIC : String := "sampleapp/getBrake/response"

def GET_LANE_REQUEST_TOPIC : String := "sampleapp/getLane"

def GET_LANE_RESPONSE_TOPIC : String := "sampleapp/getLane/response"

def DATABROKER_SPEED_SUBSCRIPTION_TOPIC : String := "sampleapp/currentSpeed"

def DATABROKER_STEER_SUBSCRIPTION_TOPIC : String := "sampleapp/currentSteer"

def DATABROKER_TRHOT_SUBSCRIPTION_TOPIC : String := "sampleapp/currentThrottle"

def DATABROKER_BRAKE_SUBSCRIPTION_TOPIC : String := "sampleapp/currentBrake"

def DATABROKER_LANE_SUBSCRIPTION_TOPIC : String := "sampleapp/currentLane"

/-- Signal path of self.Vehicle.Speed. -/
def speedPath : String := "Vehicle.Speed"

/-- Signal path of self.Vehicle.Chassis.SteeringWheel.Angle. -/
def steerPath : String := "Vehicle.Chassis.SteeringWheel.Angle"

/-- Signal path of self.Vehicle.OBD.ThrottlePosition. -/
def throttlePath : String := "Vehicle.OBD.ThrottlePosition"

/-- Signal path of self.Vehicle.Chassis.Brake.PedalPosition. -/
def brakePath : String := "Vehicle.Chassis.Brake.PedalPosition"

/-- Signal path of self.Vehicle.ADAS.LaneDepartureDetection.IsWarning. -/
def lanePath : String := "Vehicle.ADAS.LaneDepartureDetection.IsWarning"

/-- A DataPointReply maps a signal path to the delivered datapoint value;
`Option.none` models a path the reply does not carry (so that reading it
raises). -/
def DataPointReply : Type := String → Option PVal

/-- An exception escaping a handler. -/
inductive PyErr where
  | readError : PyErr
  | pubError : PyErr
deriving DecidableEq, Repr

/-- The SDK environment a handler runs against. -/
structure World where
  brokerGet : String → Option PVal
  pubOk : String → Bool

/-- Observable effects of one successful handler run. -/
structure HandlerOut where
  log : List String
  pubs : List (String × Json)

/-- Model of self.publish_event(topic, payload): one MQTT publish, or a
raised transport error. -/
def publish_event (w : World) (topic : String) (payload : Json) :
    Except PyErr (List (String × Json)) :=
  if w.pubOk topic then Except.ok [(topic, payload)] else Except.error PyErr.pubError

/-- Publishes of a handler result: none when an exception escaped. -/
def pubsOf (r : Except PyErr HandlerOut) : List (String × Json) :=
  match r with
  | Except.error _ => []
  | Except.ok h => h.pubs

/-- The response envelope json.dumps produces from
d = \x7b"result": \x7b"status": 0, "message": m\x7d\x7d. -/
def resultPayload (m : String) : Json :=
  Json.obj [("result", Json.obj [("status", Json.num "0"), ("message", Json.str m)])]

/-- SampleApp.on_speed_change. -/
def on_speed_change (w : World) (data : DataPointReply) : Except PyErr HandlerOut :=
  match data speedPath with
  | Option.none => Except.error PyErr.readError
  | Option.some v =>
      (publish_event w DATABROKER_SPEED_SUBSCRIPTION_TOPIC
        (Json.obj [("speed", v.toJson)])).map (fun ps => ⟨[], ps⟩)

/-- SampleApp.on_steer_change. -/
def on_steer_change (w : World) (data : DataPointReply) : Except PyErr HandlerOut :=
  match data steerPath with
  | Option.none => Except.error PyErr.readError
  | Option.some v =>
      (publish_event w DATABROKER_STEER_SUBSCRIPTION_TOPIC
        (Json.obj [("steeringAngle", v.toJson)])).map (fun ps => ⟨[], ps⟩)

/-- SampleApp.on_throttle_change. -/
def on_throttle_change (w : World) (data : DataPointReply) : Except PyErr HandlerOut :=
  match data throttlePath with
  | Option.none => Except.error PyErr.readError
  | Option.some v =>
      (publish_event w DATABROKER_TRHOT_SUBSCRIPTION_TOPIC
        (Json.obj [("throttlePosition", v.toJson)])).map (fun ps => ⟨[], ps⟩)

/-- SampleApp.on_brake_change. -/
def on_brake_change (w : World) (data : DataPointReply) : Except PyErr HandlerOut :=
  match data brakePath with
  | Option.none => Except.error PyErr.readError
  | Option.some v =>
      (publish_event w DATABROKER_BRAKE_SUBSCRIPTION_TOPIC
        (Json.obj [("brakePosition", v.toJson)])).map (fun ps => ⟨[], ps⟩)

/-- SampleApp.on_lane_change. -/
def on_lane_change (w : World) (data : DataPointReply) : Except PyErr HandlerOut :=
  match data lanePath with
  | Option.none => Except.error PyErr.readError
  | Option.some v =>
      (publish_event w DATABROKER_LANE_SUBSCRIPTION_TOPIC
        (Json.obj [("laneWarning", v.toJson)])).map (fun ps => ⟨[], ps⟩)

/-- SampleApp.on_get_speed_request_received (bound to GET_SPEED_REQUEST_TOPIC). -/
def on_get_speed_request_received (w : World) (data : String) : Except PyErr HandlerOut :=
  let log := ["PubSub event for the Topic: " ++ GET_SPEED_REQUEST_TOPIC ++
    " -> is received with the data: " ++ data]
  match w.brokerGet speedPath with
  | Option.none => Except.error PyErr.readError
  | Option.some v =>
      (publish_event w GET_SPEED_RESPONSE_TOPIC
        (resultPayload ("Current Speed = " ++ pstr v))).map (fun ps => ⟨log, ps⟩)

/-- SampleApp.on_get_steer_request_received (bound to GET_STEER_REQUEST_TOPIC). -/
def on_get_steer_request_received (w : World) (data : String) : Except PyErr HandlerOut :=
  let log := ["Received steer request: " ++ data]
  match w.brokerGet steerPath with
  | Option.none => Except.error PyErr.readError
  | Option.some v =>
      (publish_event w GET_STEER_RESPONSE_TOPIC
        (resultPayload ("Steer Angle = " ++ pstr v))).map (fun ps => ⟨log, ps⟩)

/-- SampleApp.on_get_throttle_request_received (bound to GET_THROT_REQUEST_TOPIC). -/
def on_get_throttle_request_received (w : World) (data : String) : Except PyErr HandlerOut :=
  let log := ["Received throttle request: " ++ data]
  match w.brokerGet throttlePath with
  | Option.none => Except.error PyErr.readError
  | Option.some v =>
      (publish_event w GET_THROT_RESPONSE_TOPIC
        (resultPayload ("Throttle = " ++ pstr v))).map (fun ps => ⟨log, ps⟩)

/-- SampleApp.on_get_brake_request_received (bound to GET_BRAKE_REQUEST_TOPIC).
The f-string of the source spans a backslash-continued line, so the
message keeps the 16 spaces of indentation between Brake and Position. -/
def on_get_brake_request_received (w : World) (data : String) : Except PyErr HandlerOut :=
  let log := ["Received brake request: " ++ data]
  match w.brokerGet brakePath with
  | Option.none => Except.error PyErr.readError
  | Option.some v =>
      (publish_event w GET_BRAKE_RESPONSE_TOPIC
        (resultPayload ("Brake                Position = " ++ pstr v))).map
        (fun ps => ⟨log, ps⟩)

/-- SampleApp.on_get_lane_request_received (bound to GET_LANE_REQUEST_TOPIC). -/
def on_get_lane_request_received (w : World) (data : String) : Except PyErr HandlerOut :=
  let log := ["Received lane request: " ++ data]
  match w.brokerGet lanePath with
  | Option.none => Except.error PyErr.readError
  | Option.some v =>
      (publish_event w GET_LANE_RESPONSE_TOPIC
        (resultPayload ("Lane Warning = " ++ pstr v))).map (fun ps => ⟨log, ps⟩)

/-- The five signal paths SampleApp.on_start subscribes, in program order. -/
def subscriptionPaths : List String :=
  [speedPath, steerPath, throttlePath, brakePath, lanePath]

/-- Sequential registration loop underlying on_start: each successful
subscribe call is appended to the registered list; the first failing call
aborts, keeping what was already registered. -/
def onStartGo (ok : String → Bool) : List String → List String →
    List String × Option String
  | [], acc => (acc, Option.none)
  | p :: ps, acc => if ok p then onStartGo ok ps (acc ++ [p]) else (acc, Option.some p)

/-- SampleApp.on_start: subscribe the five signal paths in order; `ok p`
tells whether the subscribe call on path p succeeds.  Returns the paths
registered and, when a call raised, the path it failed on. -/
def on_start (ok : String → Bool) : List String × Option String :=
  onStartGo ok subscriptionPaths []

/-- The five inbound request topics, in source order. -/
def requestTopics : List String :=
  [GET_SPEED_REQUEST_TOPIC, GET_STEER_REQUEST_TOPIC, GET_THROT_REQUEST_TOPIC,
   GET_BRAKE_REQUEST_TOPIC, GET_LANE_REQUEST_TOPIC]

/-- The five response topics, in source order. -/
def responseTopics : List String :=
  [GET_SPEED_RESPONSE_TOPIC, GET_STEER_RESPONSE_TOPIC, GET_THROT_RESPONSE_TOPIC,
   GET_BRAKE_RESPONSE_TOPIC, GET_LANE_RESPONSE_TOPIC]

/-- The five outbound signal-publish topics, in source order. -/
def subscriptionTopics : List String :=
  [DATABROKER_SPEED_SUBSCRIPTION_TOPIC, DATABROKER_STEER_SUBSCRIPTION_TOPIC,
   DATABROKER_TRHOT_SUBSCRIPTION_TOPIC, DATABROKER_BRAKE_SUBSCRIPTION_TOPIC,
   DATABROKER_LANE_SUBSCRIPTION_TOPIC]

/-- The five covered signals, named as the spec names them. -/
def coveredSignalNames : List String :=
  ["Speed", "SteeringWheel.Angle", "ThrottlePosition", "Brake.PedalPosition",
   "LaneDepartureDetection.IsWarning"]

/-- The short per-signal tokens the topic names are actually built from. -/
def shortSignalTokens : List String :=
  ["Speed", "Steer", "Throttle", "Brake", "Lane"]

/-- C1: for each of the 5 query bindings, an inbound message on the request
topic causes exactly one publish, to the bound response topic, with payload
the JSON object with result.status = 0 and result.message the label followed
by a space, an equals sign, a space and the broker value read at that moment. -/
theorem query_bindings_one_response (w : World) (p : String)
    (v1 v2 v3 v4 v5 : PVal)
    (h1 : w.brokerGet speedPath = Option.some v1)
    (h2 : w.brokerGet steerPath = Option.some v2)
    (h3 : w.brokerGet throttlePath = Option.some v3)
    (h4 : w.brokerGet brakePath = Option.some v4)
    (h5 : w.brokerGet lanePath = Option.some v5)
    (hp : ∀ t, w.pubOk t = true) :
    pubsOf (on_get_speed_request_received w p) =
      [(GET_SPEED_RESPONSE_TOPIC, resultPayload ("Current Speed = " ++ pstr v1))] ∧
    pubsOf (on_get_steer_request_received w p) =
      [(GET_STEER_RESPONSE_TOPIC, resultPayload ("Steer Angle = " ++ pstr v2))] ∧
    pubsOf (on_get_throttle_request_received w p) =
      [(GET_THROT_RESPONSE_TOPIC, resultPayload ("Throttle = " ++ pstr v3))] ∧
    pubsOf (on_get_brake_request_received w p) =
      [(GET_BRAKE_RESPONSE_TOPIC,
        resultPayload ("Brake                Position = " ++ pstr v4))] ∧
    pubsOf (on_get_lane_request_received w p) =
      [(GET_LANE_RESPONSE_TOPIC, resultPayload ("Lane Warning = " ++ pstr v5))] := by
  refine ⟨?_, ?_, ?_, ?_, ?_⟩ <;>
    simp [on_get_speed_request_received, on_get_steer_request_received,
      on_get_throttle_request_received, on_get_brake_request_received,
      on_get_lane_request_received, h1, h2, h3, h4, h5, publish_event, hp,
      pubsOf, Except.map]

/-- Witness for C1: the end-to-end example, with broker speed 10 the speed
query publishes the example response body to sampleapp/getSpeed/response. -/
theorem query_bindings_one_response_witness :
    pubsOf (on_get_speed_request_received
        ⟨fun _ => Option.some (PVal.int 10), fun _ => true⟩ "ping") =
      [("sampleapp/getSpeed/response",
        Json.obj [("result", Json.obj [("status", Json.num "0"),
          ("message", Json.str "Current Speed = 10")])])] := by
  have h := (query_bindings_one_response
    ⟨fun _ => Option.some (PVal.int 10), fun _ => true⟩ "ping"
    (PVal.int 10) (PVal.int 10) (PVal.int 10) (PVal.int 10) (PVal.int 10)
    rfl rfl rfl rfl rfl (fun _ => rfl)).1
  simpa [GET_SPEED_RESPONSE_TOPIC, resultPayload, pstr] using h

/-- C2: for each of the 5 signal bindings, a broker change notification with
value v causes exactly one publish to the bound outbound topic with payload
the single-field JSON object for that binding. -/
theorem signal_bindings_one_publish (w : World) (data : DataPointReply)
    (v1 v2 v3 v4 v5 : PVal)
    (h1 : data speedPath = Option.some v1)
    (h2 : data steerPath = Option.some v2)
    (h3 : data throttlePath = Option.some v3)
    (h4 : data brakePath = Option.some v4)
    (h5 : data lanePath = Option.some v5)
    (hp : ∀ t, w.pubOk t = true) :
    pubsOf (on_speed_change w data) =
      [(DATABROKER_SPEED_SUBSCRIPTION_TOPIC, Json.obj [("speed", v1.toJson)])] ∧
    pubsOf (on_steer_change w data) =
      [(DATABROKER_STEER_SUBSCRIPTION_TOPIC, Json.obj [("steeringAngle", v2.toJson)])] ∧
    pubsOf (on_throttle_change w data) =
      [(DATABROKER_TRHOT_SUBSCRIPTION_TOPIC, Json.obj [("throttlePosition", v3.toJson)])] ∧
    pubsOf (on_brake_change w data) =
      [(DATABROKER_BRAKE_SUBSCRIPTION_TOPIC, Json.obj [("brakePosition", v4.toJson)])] ∧
    pubsOf (on_lane_change w data) =
      [(DATABROKER_LANE_SUBSCRIPTION_TOPIC, Json.obj [("laneWarning", v5.toJson)])] := by
  refine ⟨?_, ?_, ?_, ?_, ?_⟩ <;>
    simp [on_speed_change, on_steer_change, on_throttle_change, on_brake_change,
      on_lane_change, h1, h2, h3, h4, h5, publish_event, hp, pubsOf, Except.map]

/-- Witness for C2: the end-to-end example, a broker speed notification of
42.5 publishes exactly the body with field speed = 42.5 to
sampleapp/currentSpeed. -/
theorem signal_bindings_one_publish_witness :
    pubsOf (on_speed_change ⟨fun _ => Option.none, fun _ => true⟩
        (fun _ => Option.some (PVal.float "42.5"))) =
      [("sampleapp/currentSpeed", Json.obj [("speed", Json.num "42.5")])] := by
  have h := (signal_bindings_one_publish ⟨fun _ => Option.none, fun _ => true⟩
    (fun _ => Option.some (PVal.float "42.5"))
    (PVal.float "42.5") (PVal.float "42.5") (PVal.float "42.5")
    (PVal.float "42.5") (PVal.float "42.5")
    rfl rfl rfl rfl rfl (fun _ => rfl)).1
  simpa [DATABROKER_SPEED_SUBSCRIPTION_TOPIC, PVal.toJson] using h

/-- C3 counterexample: instantiating the claimed topic patterns with the
covered signal names does not give the topics the program uses; for the
steering signal the claimed request topic sampleapp/getSteeringWheel.Angle
is not among the request topics, whose actual member is sampleapp/getSteer. -/
theorem topic_patterns_counterexample :
    ("sampleapp/get" ++ "SteeringWheel.Angle") ∉ requestTopics ∧
    ("sampleapp/current" ++ "SteeringWheel.Angle") ∉ subscriptionTopics ∧
    "SteeringWheel.Angle" ∈ coveredSignalNames ∧
    GET_STEER_REQUEST_TOPIC = "sampleapp/getSteer" := by
  refine ⟨?_, ?_, ?_, rfl⟩ <;> decide

/-- C3 amended: the topic names are bit-exact instances of the patterns
with the signal placeholder ranging over the short per-signal tokens Speed,
Steer, Throttle, Brake, Lane rather than the full covered signal names, and
every response topic is its request topic with /response appended. -/
theorem topic_patterns_amended :
    requestTopics = shortSignalTokens.map (fun s => "sampleapp/get" ++ s) ∧
    subscriptionTopics = shortSignalTokens.map (fun s => "sampleapp/current" ++ s) ∧
    responseTopics = requestTopics.map (fun t => t ++ "/response") := by
  refine ⟨?_, ?_, ?_⟩ <;> decide

/-- Shape lemma: whatever the world and payload, any pair a query handler
publishes is the bound response topic with a status-0 result envelope. -/
theorem pubsOf_query_shape (path topic lbl : String) (lg : List String)
    (w : World) (pr : String × Json)
    (hmem : pr ∈ pubsOf ((match w.brokerGet path with
      | Option.none => Except.error PyErr.readError
      | Option.some v =>
          (publish_event w topic (resultPayload (lbl ++ pstr v))).map
            (fun ps => (⟨lg, ps⟩ : HandlerOut))))) :
    ∃ m, pr = (topic, resultPayload m) := by
  cases hb : w.brokerGet path with
  | none => rw [hb] at hmem; simp [pubsOf] at hmem
  | some v =>
      rw [hb] at hmem
      by_cases hq : w.pubOk topic
      · simp [publish_event, hq, pubsOf, Except.map] at hmem
        exact ⟨lbl ++ pstr v, by rw [hmem]⟩
      · simp [publish_event, hq, pubsOf, Except.map] at hmem

/-- C4: for every broker state and every inbound payload, every pair any of
the five query handlers publishes carries a result envelope whose status
field is the integer 0; no execution path emits a non-zero status. -/
theorem response_status_always_zero (w : World) (p : String) (pr : String × Json)
    (hmem : pr ∈ pubsOf (on_get_speed_request_received w p) ++
      pubsOf (on_get_steer_request_received w p) ++
      pubsOf (on_get_throttle_request_received w p) ++
      pubsOf (on_get_brake_request_received w p) ++
      pubsOf (on_get_lane_request_received w p)) :
    ∃ m, pr.2 = Json.obj [("result",
      Json.obj [("status", Json.num "0"), ("message", Json.str m)])] := by
  simp only [List.mem_append] at hmem
  rcases hmem with (((hm | hm) | hm) | hm) | hm
  · obtain ⟨m, hpr⟩ := pubsOf_query_shape speedPath GET_SPEED_RESPONSE_TOPIC
      "Current Speed = " _ w pr (by simpa [on_get_speed_request_received] using hm)
    exact ⟨m, by rw [hpr]; rfl⟩
  · obtain ⟨m, hpr⟩ := pubsOf_query_shape steerPath GET_STEER_RESPONSE_TOPIC
      "Steer Angle = " _ w pr (by simpa [on_get_steer_request_received] using hm)
    exact ⟨m, by rw [hpr]; rfl⟩
  · obtain ⟨m, hpr⟩ := pubsOf_query_shape throttlePath GET_THROT_RESPONSE_TOPIC
      "Throttle = " _ w pr (by simpa [on_get_throttle_request_received] using hm)
    exact ⟨m, by rw [hpr]; rfl⟩
  · obtain ⟨m, hpr⟩ := pubsOf_query_shape brakePath GET_BRAKE_RESPONSE_TOPIC
      "Brake                Position = " _ w pr
      (by simpa [on_get_brake_request_received] using hm)
    exact ⟨m, by rw [hpr]; rfl⟩
  · obtain ⟨m, hpr⟩ := pubsOf_query_shape lanePath GET_LANE_RESPONSE_TOPIC
      "Lane Warning = " _ w pr (by simpa [on_get_lane_request_received] using hm)
    exact ⟨m, by rw [hpr]; rfl⟩

/-- Witness for C4, at a concrete world where the speed query publishes its
response: that response has status 0. -/
theorem response_status_always_zero_witness :
    ∃ m, (("sampleapp/getSpeed/response" : String),
        resultPayload "Current Speed = 7").2 =
      Json.obj [("result",
        Json.obj [("status", Json.num "0"), ("message", Json.str m)])] := by
  refine response_status_always_zero
    ⟨fun _ => Option.some (PVal.int 7), fun _ => true⟩ "req"
    ("sampleapp/getSpeed/response", resultPayload "Current Speed = 7") ?_
  simp only [on_get_speed_request_received, on_get_steer_request_received,
    on_get_throttle_request_received, on_get_brake_request_received,
    on_get_lane_request_received, publish_event, pubsOf, Except.map,
    if_pos, List.mem_append]
  left; left; left; left
  simp only [GET_SPEED_RESPONSE_TOPIC, pstr]
  exact List.mem_singleton.mpr rfl

/-- C5: a failed broker read in any query handler escapes the handler as an
unhandled error and nothing is published; a failed read or a failed publish
in any signal-change handler likewise escapes to the caller — no handler
catches errors or retries. -/
theorem failures_propagate_unhandled (w : World) (p : String)
    (data : DataPointReply) :
    (w.brokerGet speedPath = Option.none →
      on_get_speed_request_received w p = Except.error PyErr.readError ∧
      pubsOf (on_get_speed_request_received w p) = []) ∧
    (w.brokerGet steerPath = Option.none →
      on_get_steer_request_received w p = Except.error PyErr.readError) ∧
    (w.brokerGet throttlePath = Option.none →
      on_get_throttle_request_received w p = Except.error PyErr.readError) ∧
    (w.brokerGet brakePath = Option.none →
      on_get_brake_request_received w p = Except.error PyErr.readError) ∧
    (w.brokerGet lanePath = Option.none →
      on_get_lane_request_received w p = Except.error PyErr.readError) ∧
    (data speedPath = Option.none →
      on_speed_change w data = Except.error PyErr.readError) ∧
    (data steerPath = Option.none →
      on_steer_change w data = Except.error PyErr.readError) ∧
    (data throttlePath = Option.none →
      on_throttle_change w data = Except.error PyErr.readError) ∧
    (data brakePath = Option.none →
      on_brake_change w data = Except.error PyErr.readError) ∧
    (data lanePath = Option.none →
      on_lane_change w data = Except.error PyErr.readError) ∧
    (∀ v, data speedPath = Option.some v →
      w.pubOk DATABROKER_SPEED_SUBSCRIPTION_TOPIC = false →
      on_speed_change w data = Except.error PyErr.pubError ∧
      pubsOf (on_speed_change w data) = []) ∧
    (∀ v, data steerPath = Option.some v →
      w.pubOk DATABROKER_STEER_SUBSCRIPTION_TOPIC = false →
      on_steer_change w data = Except.error PyErr.pubError) ∧
    (∀ v, data throttlePath = Option.some v →
      w.pubOk DATABROKER_TRHOT_SUBSCRIPTION_TOPIC = false →
      on_throttle_change w data = Except.error PyErr.pubError) ∧
    (∀ v, data brakePath = Option.some v →
      w.pubOk DATABROKER_BRAKE_SUBSCRIPTION_TOPIC = false →
      on_brake_change w data = Except.error PyErr.pubError) ∧
    (∀ v, data lanePath = Option.some v →
      w.pubOk DATABROKER_LANE_SUBSCRIPTION_TOPIC = false →
      on_lane_change w data = Except.error PyErr.pubError) := by
  refine ⟨fun h => ?_, fun h => ?_, fun h => ?_, fun h => ?_, fun h => ?_,
    fun h => ?_, fun h => ?_, fun h => ?_, fun h => ?_, fun h => ?_,
    fun v hv hq => ?_, fun v hv hq => ?_, fun v hv hq => ?_,
    fun v hv hq => ?_, fun v hv hq => ?_⟩ <;>
    simp [on_get_speed_request_received, on_get_steer_request_received,
      on_get_throttle_request_received, on_get_brake_request_received,
      on_get_lane_request_received, on_speed_change, on_steer_change,
      on_throttle_change, on_brake_change, on_lane_change, publish_event,
      pubsOf, Except.map, *]

/-- Witness for C5: with a broker whose reads fail, the speed query raises
and publishes nothing and the lane change handler raises; with a transport
that refuses every topic, the speed and brake change handlers raise a
publish error. -/
theorem failures_propagate_unhandled_witness :
    (on_get_speed_request_received ⟨fun _ => Option.none, fun _ => true⟩ "req" =
      Except.error PyErr.readError ∧
     pubsOf (on_get_speed_request_received ⟨fun _ => Option.none, fun _ => true⟩
       "req") = []) ∧
    on_lane_change ⟨fun _ => Option.none, fun _ => true⟩
      (fun _ => Option.none) = Except.error PyErr.readError ∧
    on_speed_change ⟨fun _ => Option.none, fun _ => false⟩
      (fun _ => Option.some (PVal.int 3)) = Except.error PyErr.pubError ∧
    on_brake_change ⟨fun _ => Option.none, fun _ => false⟩
      (fun _ => Option.some (PVal.int 3)) = Except.error PyErr.pubError := by
  refine ⟨(failures_propagate_unhandled ⟨fun _ => Option.none, fun _ => true⟩
    "req" (fun _ => Option.none)).1 rfl, ?_, ?_, ?_⟩
  · exact (failures_propagate_unhandled ⟨fun _ => Option.none, fun _ => true⟩
      "req" (fun _ => Option.none)).2.2.2.2.2.2.2.2.2.1 rfl
  · exact ((failures_propagate_unhandled ⟨fun _ => Option.none, fun _ => false⟩
      "req" (fun _ => Option.some (PVal.int 3))).2.2.2.2.2.2.2.2.2.2.1
      (PVal.int 3) rfl rfl).1
  · exact (failures_propagate_unhandled ⟨fun _ => Option.none, fun _ => false⟩
      "req" (fun _ => Option.some (PVal.int 3))).2.2.2.2.2.2.2.2.2.2.2.2.2.1
      (PVal.int 3) rfl rfl

/-- C6: a query handler's published output does not depend on the inbound
request payload: under any world, two invocations with different payload
strings produce the same publishes (and the same error, when one escapes). -/
theorem request_payload_noninterference (w : World) (p1 p2 : String) :
    Except.map HandlerOut.pubs (on_get_speed_request_received w p1) =
      Except.map HandlerOut.pubs (on_get_speed_request_received w p2) ∧
    Except.map HandlerOut.pubs (on_get_steer_request_received w p1) =
      Except.map HandlerOut.pubs (on_get_steer_request_received w p2) ∧
    Except.map HandlerOut.pubs (on_get_throttle_request_received w p1) =
      Except.map HandlerOut.pubs (on_get_throttle_request_received w p2) ∧
    Except.map HandlerOut.pubs (on_get_brake_request_received w p1) =
      Except.map HandlerOut.pubs (on_get_brake_request_received w p2) ∧
    Except.map HandlerOut.pubs (on_get_lane_request_received w p1) =
      Except.map HandlerOut.pubs (on_get_lane_request_received w p2) := by
  refine ⟨?_, ?_, ?_, ?_, ?_⟩
  · cases hb : w.brokerGet speedPath <;>
      cases hq : w.pubOk GET_SPEED_RESPONSE_TOPIC <;>
      simp [on_get_speed_request_received, hb, hq, publish_event, Except.map]
  · cases hb : w.brokerGet steerPath <;>
      cases hq : w.pubOk GET_STEER_RESPONSE_TOPIC <;>
      simp [on_get_steer_request_received, hb, hq, publish_event, Except.map]
  · cases hb : w.brokerGet throttlePath <;>
      cases hq : w.pubOk GET_THROT_RESPONSE_TOPIC <;>
      simp [on_get_throttle_request_received, hb, hq, publish_event, Except.map]
  · cases hb : w.brokerGet brakePath <;>
      cases hq : w.pubOk GET_BRAKE_RESPONSE_TOPIC <;>
      simp [on_get_brake_request_received, hb, hq, publish_event, Except.map]
  · cases hb : w.brokerGet lanePath <;>
      cases hq : w.pubOk GET_LANE_RESPONSE_TOPIC <;>
      simp [on_get_lane_request_received, hb, hq, publish_event, Except.map]

/-- C7: no deduplication: two consecutive invocations of a query handler on
the same request and unchanged broker state publish two identical responses,
one per invocation. -/
theorem query_repetition_stable (w : World) (p : String)
    (v1 v2 v3 v4 v5 : PVal)
    (h1 : w.brokerGet speedPath = Option.some v1)
    (h2 : w.brokerGet steerPath = Option.some v2)
    (h3 : w.brokerGet throttlePath = Option.some v3)
    (h4 : w.brokerGet brakePath = Option.some v4)
    (h5 : w.brokerGet lanePath = Option.some v5)
    (hp : ∀ t, w.pubOk t = true) :
    pubsOf (on_get_speed_request_received w p) ++
      pubsOf (on_get_speed_request_received w p) =
      [(GET_SPEED_RESPONSE_TOPIC, resultPayload ("Current Speed = " ++ pstr v1)),
       (GET_SPEED_RESPONSE_TOPIC, resultPayload ("Current Speed = " ++ pstr v1))] ∧
    pubsOf (on_get_steer_request_received w p) ++
      pubsOf (on_get_steer_request_received w p) =
      [(GET_STEER_RESPONSE_TOPIC, resultPayload ("Steer Angle = " ++ pstr v2)),
       (GET_STEER_RESPONSE_TOPIC, resultPayload ("Steer Angle = " ++ pstr v2))] ∧
    pubsOf (on_get_throttle_request_received w p) ++
      pubsOf (on_get_throttle_request_received w p) =
      [(GET_THROT_RESPONSE_TOPIC, resultPayload ("Throttle = " ++ pstr v3)),
       (GET_THROT_RESPONSE_TOPIC, resultPayload ("Throttle = " ++ pstr v3))] ∧
    pubsOf (on_get_brake_request_received w p) ++
      pubsOf (on_get_brake_request_received w p) =
      [(GET_BRAKE_RESPONSE_TOPIC,
        resultPayload ("Brake                Position = " ++ pstr v4)),
       (GET_BRAKE_RESPONSE_TOPIC,
        resultPayload ("Brake                Position = " ++ pstr v4))] ∧
    pubsOf (on_get_lane_request_received w p) ++
      pubsOf (on_get_lane_request_received w p) =
      [(GET_LANE_RESPONSE_TOPIC, resultPayload ("Lane Warning = " ++ pstr v5)),
       (GET_LANE_RESPONSE_TOPIC, resultPayload ("Lane Warning = " ++ pstr v5))] := by
  refine ⟨?_, ?_, ?_, ?_, ?_⟩ <;>
    simp [on_get_speed_request_received, on_get_steer_request_received,
      on_get_throttle_request_received, on_get_brake_request_received,
      on_get_lane_request_received, h1, h2, h3, h4, h5, publish_event, hp,
      pubsOf, Except.map]

/-- Witness for C7: sending the speed request twice at a fixed world yields
the two identical response publishes. -/
theorem query_repetition_stable_witness :
    pubsOf (on_get_speed_request_received
        ⟨fun _ => Option.some (PVal.int 10), fun _ => true⟩ "req") ++
      pubsOf (on_get_speed_request_received
        ⟨fun _ => Option.some (PVal.int 10), fun _ => true⟩ "req") =
      [("sampleapp/getSpeed/response", resultPayload "Current Speed = 10"),
       ("sampleapp/getSpeed/response", resultPayload "Current Speed = 10")] := by
  have h := (query_repetition_stable
    ⟨fun _ => Option.some (PVal.int 10), fun _ => true⟩ "req"
    (PVal.int 10) (PVal.int 10) (PVal.int 10) (PVal.int 10) (PVal.int 10)
    rfl rfl rfl rfl rfl (fun _ => rfl)).1
  simpa [GET_SPEED_RESPONSE_TOPIC, pstr] using h

/-- C8: when the broker delivers the value None for a subscribed signal, the
signal-change handler completes without raising and publishes the envelope
with the value serialized as JSON null. -/
theorem null_value_serializes (w : World) (data : DataPointReply)
    (hp : ∀ t, w.pubOk t = true) :
    (data speedPath = Option.some PVal.none →
      on_speed_change w data = Except.ok ⟨[],
        [(DATABROKER_SPEED_SUBSCRIPTION_TOPIC, Json.obj [("speed", Json.null)])]⟩) ∧
    (data steerPath = Option.some PVal.none →
      on_steer_change w data = Except.ok ⟨[],
        [(DATABROKER_STEER_SUBSCRIPTION_TOPIC,
          Json.obj [("steeringAngle", Json.null)])]⟩) ∧
    (data throttlePath = Option.some PVal.none →
      on_throttle_change w data = Except.ok ⟨[],
        [(DATABROKER_TRHOT_SUBSCRIPTION_TOPIC,
          Json.obj [("throttlePosition", Json.null)])]⟩) ∧
    (data brakePath = Option.some PVal.none →
      on_brake_change w data = Except.ok ⟨[],
        [(DATABROKER_BRAKE_SUBSCRIPTION_TOPIC,
          Json.obj [("brakePosition", Json.null)])]⟩) ∧
    (data lanePath = Option.some PVal.none →
      on_lane_change w data = Except.ok ⟨[],
        [(DATABROKER_LANE_SUBSCRIPTION_TOPIC,
          Json.obj [("laneWarning", Json.null)])]⟩) := by
  refine ⟨fun h => ?_, fun h => ?_, fun h => ?_, fun h => ?_, fun h => ?_⟩ <;>
    simp [on_speed_change, on_steer_change, on_throttle_change, on_brake_change,
      on_lane_change, h, publish_event, hp, PVal.toJson, Except.map]

/-- Witness for C8: a speed notification carrying None publishes the body
with field speed = null to sampleapp/currentSpeed, raising nothing. -/
theorem null_value_serializes_witness :
    on_speed_change ⟨fun _ => Option.none, fun _ => true⟩
        (fun _ => Option.some PVal.none) =
      Except.ok ⟨[], [("sampleapp/currentSpeed",
        Json.obj [("speed", Json.null)])]⟩ := by
  have h := (null_value_serializes ⟨fun _ => Option.none, fun _ => true⟩
    (fun _ => Option.some PVal.none) (fun _ => rfl)).1 rfl
  simpa [DATABROKER_SPEED_SUBSCRIPTION_TOPIC] using h

/-- C9: on_start subscribes exactly the five known signal paths, in order;
when every subscribe call succeeds all five are registered and no error is
reported, and when a call fails the loop stops at the first failing path,
keeping the earlier registrations with no rollback. -/
theorem on_start_all_or_first_fail (ok : String → Bool) :
    ((∀ q ∈ subscriptionPaths, ok q = true) →
      on_start ok = (subscriptionPaths, Option.none)) ∧
    (∀ i, ∀ hi : i < subscriptionPaths.length,
      (∀ j, ∀ hj : j < i, ok (subscriptionPaths.get ⟨j, hj.trans hi⟩) = true) →
      ok (subscriptionPaths.get ⟨i, hi⟩) = false →
      on_start ok = (subscriptionPaths.take i,
        Option.some (subscriptionPaths.get ⟨i, hi⟩))) := by
  constructor
  · intro h
    have e0 : ok speedPath = true := h speedPath (by simp [subscriptionPaths])
    have e1 : ok steerPath = true := h steerPath (by simp [subscriptionPaths])
    have e2 : ok throttlePath = true := h throttlePath (by simp [subscriptionPaths])
    have e3 : ok brakePath = true := h brakePath (by simp [subscriptionPaths])
    have e4 : ok lanePath = true := h lanePath (by simp [subscriptionPaths])
    simp [on_start, onStartGo, subscriptionPaths, e0, e1, e2, e3, e4]
  · intro i hi hprev hfail
    have hi5 : i < 5 := by simpa [subscriptionPaths] using hi
    interval_cases i
    · have hf : ok speedPath = false := hfail
      show on_start ok = ([], Option.some speedPath)
      simp [on_start, onStartGo, subscriptionPaths, hf]
    · have e0 : ok speedPath = true := hprev 0 (by omega)
      have hf : ok steerPath = false := hfail
      show on_start ok = ([speedPath], Option.some steerPath)
      simp [on_start, onStartGo, subscriptionPaths, e0, hf]
    · have e0 : ok speedPath = true := hprev 0 (by omega)
      have e1 : ok steerPath = true := hprev 1 (by omega)
      have hf : ok throttlePath = false := hfail
      show on_start ok = ([speedPath, steerPath], Option.some throttlePath)
      simp [on_start, onStartGo, subscriptionPaths, e0, e1, hf]
    · have e0 : ok speedPath = true := hprev 0 (by omega)
      have e1 : ok steerPath = true := hprev 1 (by omega)
      have e2 : ok throttlePath = true := hprev 2 (by omega)
      have hf : ok brakePath = false := hfail
      show on_start ok = ([speedPath, steerPath, throttlePath],
        Option.some brakePath)
      simp [on_start, onStartGo, subscriptionPaths, e0, e1, e2, hf]
    · have e0 : ok speedPath = true := hprev 0 (by omega)
      have e1 : ok steerPath = true := hprev 1 (by omega)
      have e2 : ok throttlePath = true := hprev 2 (by omega)
      have e3 : ok brakePath = true := hprev 3 (by omega)
      have hf : ok lanePath = false := hfail
      show on_start ok = ([speedPath, steerPath, throttlePath, brakePath],
        Option.some lanePath)
      simp [on_start, onStartGo, subscriptionPaths, e0, e1, e2, e3, hf]

/-- Witness for C9: with a broker accepting all subscribe calls on_start
registers all five paths; with a broker that rejects the third path it
stops there, keeping the first two registrations. -/
theorem on_start_all_or_first_fail_witness :
    on_start (fun _ => true) = (subscriptionPaths, Option.none) ∧
    on_start (fun q => decide (q = speedPath ∨ q = steerPath)) =
      ([speedPath, steerPath], Option.some throttlePath) := by
  constructor
  · exact (on_start_all_or_first_fail (fun _ => true)).1 (fun q _ => rfl)
  · exact (on_start_all_or_first_fail
      (fun q => decide (q = speedPath ∨ q = steerPath))).2 2 (by decide)
      (fun j hj => by interval_cases j <;> rfl) (by rfl)

/-- C10: each signal-change handler reads the incoming reply only at its own
bound signal path: two replies agreeing there give identical handler
behaviour, whatever else the replies carry. -/
theorem change_handler_depends_only_on_own_path (w : World)
    (d1 d2 : DataPointReply) :
    (d1 speedPath = d2 speedPath →
      on_speed_change w d1 = on_speed_change w d2) ∧
    (d1 steerPath = d2 steerPath →
      on_steer_change w d1 = on_steer_change w d2) ∧
    (d1 throttlePath = d2 throttlePath →
      on_throttle_change w d1 = on_throttle_change w d2) ∧
    (d1 brakePath = d2 brakePath →
      on_brake_change w d1 = on_brake_change w d2) ∧
    (d1 lanePath = d2 lanePath →
      on_lane_change w d1 = on_lane_change w d2) := by
  refine ⟨fun h => ?_, fun h => ?_, fun h => ?_, fun h => ?_, fun h => ?_⟩
  · unfold on_speed_change; rw [h]
  · unfold on_steer_change; rw [h]
  · unfold on_throttle_change; rw [h]
  · unfold on_brake_change; rw [h]
  · unfold on_lane_change; rw [h]

/-- Witness for C10: two replies that agree at Vehicle.Speed but disagree
everywhere else drive on_speed_change identically. -/
theorem change_handler_depends_only_on_own_path_witness :
    on_speed_change ⟨fun _ => Option.none, fun _ => true⟩
        (fun q => if q = speedPath then Option.some (PVal.int 7)
          else Option.some (PVal.int 1)) =
      on_speed_change ⟨fun _ => Option.none, fun _ => true⟩
        (fun q => if q = speedPath then Option.some (PVal.int 7)
          else Option.none) :=
  (change_handler_depends_only_on_own_path ⟨fun _ => Option.none, fun _ => true⟩
    (fun q => if q = speedPath then Option.some (PVal.int 7)
      else Option.some (PVal.int 1))
    (fun q => if q = speedPath then Option.some (PVal.int 7)
      else Option.none)).1 (by simp)

end SampleApp
